import Mathlib

/-!
Verification of the filename classifier and document-conversion workflow of
the exam-document-converter repository.

The embedding follows two implementations present in the repository:

* `src/src/services/wasmService.ts` — the TypeScript service actually imported
  by `src/src/App.tsx` (functions `analyzeFilename`, `analyzeDocument`,
  `convertDocuments`, `compressImage`, `getMimeType`);
* `src/public/wasm-loader.js` — the embedded Python `DocumentAnalyzer`
  (`analyze_filename`, `_detect_document_type`, `_detect_education_level`,
  `_generate_suggested_name`, `_calculate_confidence`).

Definitions prefixed `ts` embed the TypeScript service; definitions prefixed
`py` embed the Python analyzer.  JavaScript/Python regular expressions used by
the classifiers are alternations of literal characters, `\s*` gaps and `\.?`
optional dots, so they are embedded as lists of alternatives over a small
`Atom` type, with `re.search` / `RegExp.test` semantics (match at any start
position).  JS `number` confidence arithmetic is modelled over `ℚ`; every
value reachable here (0, 1/5, 3/10, 1/2, 7/10, 4/5, 1) is exact in binary64
and the comparisons agree.  String case conversion is modelled on the ASCII
range (all pattern literals are ASCII).
-/

namespace ExamConv

/-- One element of a regular-expression alternative: a literal character
(compared case-insensitively, modelling the `i` flag), a `\s*` gap, or an
optional dot `\.?`. -/
inductive Atom where
  | lit (c : Char)
  | wsStar
  | dotOpt
deriving DecidableEq, Repr

/-- An alternative is a sequence of atoms; a regex is an alternation. -/
abbrev RegexAlt := List Atom

abbrev RegexE := List RegexAlt

/-- Case-insensitive character comparison (the `i` regex flag). -/
def charIEq (a b : Char) : Bool := a.toLower == b.toLower

/-- JavaScript `\s` character class (and Python's for the classifier's ASCII
inputs): tab, LF, VT, FF, CR, space, NBSP and the Unicode space separators. -/
def isJsWs (c : Char) : Bool :=
  c.toNat ∈ [0x9, 0xa, 0xb, 0xc, 0xd, 0x20, 0xa0, 0x1680, 0x2028, 0x2029,
                0x202f, 0x205f, 0x3000, 0xfeff]
  || (0x2000 ≤ c.toNat && c.toNat ≤ 0x200a)

/-- All suffixes of `cs` obtainable by consuming leading whitespace
(used to interpret a `\s*` gap). -/
def wsTails : List Char → List (List Char)
  | [] => [[]]
  | c :: cs => (c :: cs) :: (if isJsWs c then wsTails cs else [])

/-- Does the alternative match a prefix of `cs`? -/
def matchAtoms : List Atom → List Char → Bool
  | [], _ => true
  | .lit c :: as, cs =>
      match cs with
      | [] => false
      | d :: cs' => charIEq c d && matchAtoms as cs'
  | .wsStar :: as, cs => (wsTails cs).any (fun cs' => matchAtoms as cs')
  | .dotOpt :: as, cs =>
      matchAtoms as cs ||
        (match cs with
         | '.' :: cs' => matchAtoms as cs'
         | _ => false)

/-- `re.search` / `RegExp.test`: some alternative matches at some position. -/
def searchRegex (re : RegexE) : List Char → Bool
  | [] => re.any (fun alt => matchAtoms alt [])
  | c :: cs => re.any (fun alt => matchAtoms alt (c :: cs)) || searchRegex re cs

/-- A string of literal atoms. -/
def litA (s : String) : List Atom := s.data.map Atom.lit

/-- `documentPatterns` of `wasmService.analyzeFilename` (identical pattern
tables appear in the Python analyzer of `wasm-loader.js`), in declaration
order. -/
def documentPatterns : List (String × List RegexE) :=
  [ ("marksheet",
      [ [litA "marksheet", litA "mark" ++ [Atom.wsStar] ++ litA "sheet"],
        [litA "grade" ++ [Atom.wsStar] ++ litA "report"],
        [litA "academic" ++ [Atom.wsStar] ++ litA "record"],
        [litA "transcript"],
        [litA "result"] ]),
    ("certificate",
      [ [litA "certificate"], [litA "diploma"], [litA "degree"],
        [litA "qualification"] ]),
    ("photo",
      [ [litA "photo"], [litA "photograph"], [litA "image"], [litA "picture"],
        [litA "passport" ++ [Atom.wsStar] ++ litA "size"] ]),
    ("signature",
      [ [litA "signature"], [litA "sign"], [litA "autograph"] ]),
    ("identity",
      [ [litA "aadhar", litA "aadhaar"],
        [litA "pan" ++ [Atom.wsStar] ++ litA "card"],
        [litA "voter" ++ [Atom.wsStar] ++ litA "id"],
        [litA "passport"],
        [litA "driving" ++ [Atom.wsStar] ++ litA "license"],
        [litA "identity" ++ [Atom.wsStar] ++ litA "proof"] ]),
    ("category",
      [ [litA "caste" ++ [Atom.wsStar] ++ litA "certificate"],
        [litA "category" ++ [Atom.wsStar] ++ litA "certificate"],
        [litA "reservation" ++ [Atom.wsStar] ++ litA "certificate"],
        [litA "obc", litA "sc", litA "st", litA "ews"],
        [litA "income" ++ [Atom.wsStar] ++ litA "certificate"] ]) ]

/-- `classPatterns` of `wasmService.analyzeFilename` (same table in the
Python analyzer). -/
def classPatterns : List (String × List RegexE) :=
  [ ("10th",
      [ [litA "10th", litA "tenth", litA "class" ++ [Atom.wsStar] ++ litA "10",
         litA "x" ++ [Atom.wsStar] ++ litA "class", litA "sslc"] ]),
    ("12th",
      [ [litA "12th", litA "twelfth", litA "class" ++ [Atom.wsStar] ++ litA "12",
         litA "xii" ++ [Atom.wsStar] ++ litA "class", litA "hsc",
         litA "intermediate"] ]),
    ("graduation",
      [ [litA "graduation", litA "bachelor",
         litA "b" ++ [Atom.dotOpt] ++ litA "tech",
         litA "b" ++ [Atom.dotOpt] ++ litA "sc",
         litA "b" ++ [Atom.dotOpt] ++ litA "com",
         litA "b" ++ [Atom.dotOpt] ++ litA "a", litA "degree"] ]),
    ("post_graduation",
      [ [litA "post" ++ [Atom.wsStar] ++ litA "graduation", litA "master",
         litA "m" ++ [Atom.dotOpt] ++ litA "tech",
         litA "m" ++ [Atom.dotOpt] ++ litA "sc",
         litA "m" ++ [Atom.dotOpt] ++ litA "com",
         litA "m" ++ [Atom.dotOpt] ++ litA "a", litA "phd"] ]) ]

/-- `String.prototype.toLowerCase` / `str.lower`, on the ASCII range. -/
def jsToLower (s : String) : String := ⟨s.data.map Char.toLower⟩

/-- `String.prototype.toUpperCase`, on the ASCII range. -/
def jsToUpper (s : String) : String := ⟨s.data.map Char.toUpper⟩

/-- Characters strictly before the last `'.'`; `none` when there is no dot
(`filename.includes('.')` is false / `'.' in filename` is false). -/
def beforeLastDot : List Char → Option (List Char)
  | [] => none
  | c :: cs =>
      match beforeLastDot cs with
      | some r => some (c :: r)
      | none => if c = '.' then some [] else none

/-- Characters strictly after the last `'.'`; `none` when there is no dot. -/
def afterLastDot : List Char → Option (List Char)
  | [] => none
  | c :: cs =>
      match afterLastDot cs with
      | some r => some r
      | none => if c = '.' then some cs else none

/-- The detection loops of `wasmService.analyzeFilename`: starting from
`'unknown'`, each category in order sets the result to its label on the first
matching pattern, and the outer loop stops once the result differs from
`'unknown'`. -/
def detectFirst : List (String × List RegexE) → List Char → String
  | [], _ => "unknown"
  | (ty, pats) :: rest, text =>
      let t := if pats.any (fun p => searchRegex p text) then ty else "unknown"
      if t ≠ "unknown" then t else detectFirst rest text

/-- `Math.min` on the modelled numbers. -/
def jsMin (a b : ℚ) : ℚ := if a ≤ b then a else b

/-- `documentType` as computed by `wasmService.analyzeFilename`: patterns are
tested against `filenameLower`, the whole lower-cased filename. -/
def tsDocumentType (filename : String) : String :=
  detectFirst documentPatterns (jsToLower filename).data

/-- `educationLevel` as computed (internally) by `wasmService.analyzeFilename`;
the value is used for the suggested name and confidence but is not a field of
the returned object. -/
def tsEducationLevel (filename : String) : String :=
  detectFirst classPatterns (jsToLower filename).data

/-- `fileExt` of `wasmService.analyzeFilename`: the part of the original
filename after the last `'.'`, `''` when there is no dot. -/
def tsFileExt (filename : String) : String :=
  match afterLastDot filename.data with
  | some e => ⟨e⟩
  | none => ""

/-- `levelMap` of `wasmService.analyzeFilename` (a JS record lookup; keys other
than the four reachable ones would give `undefined`). -/
def levelDisplay : String → String
  | "10th" => "10th"
  | "12th" => "12th"
  | "graduation" => "Graduation"
  | "post_graduation" => "PostGraduation"
  | _ => "undefined"

/-- `typeMap` of `wasmService.analyzeFilename`. -/
def typeDisplay : String → String
  | "marksheet" => "Marksheet"
  | "certificate" => "Certificate"
  | "photo" => "Photo"
  | "signature" => "Signature"
  | "identity" => "IdentityProof"
  | "category" => "CategoryCertificate"
  | _ => "undefined"

/-- Confidence of `wasmService.analyzeFilename`: base `0.5`, `+0.3` for a
known document type, `+0.2` for a known education level, clamped by
`Math.min(confidence, 1.0)`. -/
def tsConfidence (filename : String) : ℚ :=
  let c1 : ℚ := 1/2
  let c2 := if tsDocumentType filename ≠ "unknown" then c1 + 3/10 else c1
  let c3 := if tsEducationLevel filename ≠ "unknown" then c2 + 1/5 else c2
  jsMin c3 1

/-- The record returned by `wasmService.analyzeFilename`. -/
structure FilenameAnalysis where
  suggestedName : String
  confidence : ℚ
  documentType : String
deriving DecidableEq, Repr

/-- `wasmService.analyzeFilename` (private method, lines 50–170):
document type and education level detected on the full lower-cased filename,
suggested name from the display labels (falling back to `"Document"`), the
original extension re-appended when present, and the clamped confidence. -/
def analyzeFilename (filename : String) : FilenameAnalysis :=
  let documentType := tsDocumentType filename
  let educationLevel := tsEducationLevel filename
  let fileExt := tsFileExt filename
  let nameParts :=
    (if educationLevel ≠ "unknown" then [levelDisplay educationLevel] else []) ++
    (if documentType ≠ "unknown" then [typeDisplay documentType] else [])
  let nameParts2 := if nameParts = [] then ["Document"] else nameParts
  { suggestedName :=
      String.join nameParts2 ++ (if fileExt ≠ "" then "." ++ fileExt else ""),
    confidence := tsConfidence filename,
    documentType := documentType }

/-! ### The Python analyzer of `src/public/wasm-loader.js` -/

/-- The lower-cased stem: `filename_lower.rsplit('.', 1)[0]` when the
lower-cased filename contains a dot, the whole lower-cased filename
otherwise. -/
def pyStemLower (filename : String) : String :=
  match beforeLastDot (jsToLower filename).data with
  | some st => ⟨st⟩
  | none => jsToLower filename

/-- `file_ext`: the original-case part after the last `'.'`, `''` if none. -/
def pyFileExt (filename : String) : String :=
  match afterLastDot filename.data with
  | some e => ⟨e⟩
  | none => ""

/-- `_detect_document_type` / `_detect_education_level`: return the first
category whose patterns contain a match, else `'unknown'`. -/
def pyDetect : List (String × List RegexE) → List Char → String
  | [], _ => "unknown"
  | (ty, pats) :: rest, text =>
      if pats.any (fun p => searchRegex p text) then ty else pyDetect rest text

/-- `document_type` of the Python analyzer: detected on the stem only. -/
def pyDocumentType (filename : String) : String :=
  pyDetect documentPatterns (pyStemLower filename).data

/-- `education_level` of the Python analyzer: detected on the stem only. -/
def pyEducationLevel (filename : String) : String :=
  pyDetect classPatterns (pyStemLower filename).data

/-- `level_map.get(edu_level, edu_level)` of `_generate_suggested_name`. -/
def pyLevelDisplay (lv : String) : String :=
  match lv with
  | "10th" => "10th"
  | "12th" => "12th"
  | "graduation" => "Graduation"
  | "post_graduation" => "PostGraduation"
  | _ => lv

/-- `type_map.get(doc_type, doc_type)` of `_generate_suggested_name`. -/
def pyTypeDisplay (dt : String) : String :=
  match dt with
  | "marksheet" => "Marksheet"
  | "certificate" => "Certificate"
  | "photo" => "Photo"
  | "signature" => "Signature"
  | "identity" => "IdentityProof"
  | "category" => "CategoryCertificate"
  | _ => dt

/-- `_generate_suggested_name`. -/
def pySuggestedName (filename : String) : String :=
  let dt := pyDocumentType filename
  let el := pyEducationLevel filename
  let ext := pyFileExt filename
  let nameParts :=
    (if el ≠ "unknown" then [pyLevelDisplay el] else []) ++
    (if dt ≠ "unknown" then [pyTypeDisplay dt] else [])
  let nameParts2 := if nameParts = [] then ["Document"] else nameParts
  String.join nameParts2 ++ (if ext ≠ "" then "." ++ ext else "")

/-- `_calculate_confidence`'s `total_matches`: each pattern across all
document and class categories matching the stem counts once. -/
def pyTotalMatches (text : List Char) : Nat :=
  (documentPatterns.map Prod.snd ++ classPatterns.map Prod.snd).foldl
    (fun acc pats => acc + pats.countP (fun p => searchRegex p text)) 0

/-- `_calculate_confidence`: base `0.0`, `+0.5` for a known document type,
`+0.3` for a known education level, `+0.2` if more than one pattern matched,
then `min(confidence, 1.0)`. -/
def pyConfidence (filename : String) : ℚ :=
  let c0 : ℚ := 0
  let c1 := if pyDocumentType filename ≠ "unknown" then c0 + 1/2 else c0
  let c2 := if pyEducationLevel filename ≠ "unknown" then c1 + 3/10 else c1
  let c3 :=
    if pyTotalMatches (pyStemLower filename).data > 1 then c2 + 1/5 else c2
  jsMin c3 1

/-- The dict returned by the Python `analyze_filename`. -/
structure PyAnalysis where
  original_name : String
  suggested_name : String
  document_type : String
  education_level : String
  confidence : ℚ
deriving DecidableEq, Repr

/-- `DocumentAnalyzer.analyze_filename` of `wasm-loader.js` (lines 86–102). -/
def pyAnalyzeFilename (filename : String) : PyAnalysis :=
  { original_name := filename,
    suggested_name := pySuggestedName filename,
    document_type := pyDocumentType filename,
    education_level := pyEducationLevel filename,
    confidence := pyConfidence filename }

/-! ### `analyzeDocument` of `wasmService.ts` -/

/-- The `AnalysisResult` interface of `src/src/types/index.ts` (lines 33–38). -/
structure AnalysisResult where
  originalName : String
  suggestedName : String
  confidence : ℚ
  documentType : String
deriving DecidableEq, Repr

/-- The field names of the `AnalysisResult` interface / of the object literals
returned by `wasmService.analyzeDocument`, in declaration order. -/
def analysisResultKeys : List String :=
  ["originalName", "suggestedName", "confidence", "documentType"]

/-- `wasmService.analyzeDocument` (lines 23–48), with the call to
`this.analyzeFilename` abstracted as `analyze` so that the `catch` branch is
expressible: if the service is not initialized the method throws; otherwise a
failure of the analysis is caught and replaced by the fallback result. -/
def analyzeDocumentWith (analyze : String → Except String FilenameAnalysis)
    (initialized : Bool) (name : String) : Except String AnalysisResult :=
  if initialized = false then .error "Document service not initialized"
  else
    match analyze name with
    | .ok a =>
        .ok { originalName := name, suggestedName := a.suggestedName,
              confidence := a.confidence, documentType := a.documentType }
    | .error _ =>
        .ok { originalName := name, suggestedName := name,
              confidence := 1/2, documentType := "unknown" }

/-- `wasmService.analyzeDocument` with the actual (total) `analyzeFilename`. -/
def analyzeDocument (initialized : Bool) (name : String) :
    Except String AnalysisResult :=
  analyzeDocumentWith (fun n => .ok (analyzeFilename n)) initialized name

/-! ### `convertDocuments` of `wasmService.ts` and the `App.tsx` status map -/

/-- A browser `File` as the conversion code observes it: `name`, `size`,
`type` (MIME string) and the outcome of `arrayBuffer()` (which can reject). -/
structure JsFile where
  name : String
  size : Nat
  type : String
  bytes : Except String (List Nat)

/-- A `Blob` created by `new Blob([bytes], { type })`. -/
structure BlobModel where
  content : List Nat
  mime : String
deriving DecidableEq, Repr

/-- One entry pushed onto `convertedFiles`; the blob stands for the object
URL handed to `URL.createObjectURL`. -/
structure ConvertedFile where
  originalName : String
  convertedName : String
  blob : BlobModel
deriving DecidableEq, Repr

/-- The `ConversionResult` interface of `src/src/types/index.ts`. -/
structure ConversionResult where
  success : Bool
  files : List ConvertedFile
  error : Option String
deriving DecidableEq, Repr

/-- `wasmService.getMimeType` (lines 271–281). -/
def getMimeType (format : String) : String :=
  match jsToUpper format with
  | "PDF" => "application/pdf"
  | "JPEG" => "image/jpeg"
  | "JPG" => "image/jpeg"
  | "PNG" => "image/png"
  | "DOCX" =>
      "application/vnd.openxmlformats-officedocument.wordprocessingml.document"
  | _ => "application/octet-stream"

/-- JS `maxSizes[primaryFormat] || 5 * 1024 * 1024`: a missing key and the
falsy value `0` both fall back to the default. -/
def jsOrDefault : Option Nat → Nat → Nat
  | some v, d => if v = 0 then d else v
  | none, d => d

/-- `file.name.substring(0, file.name.lastIndexOf('.')) || file.name`:
the empty stem (no dot, or a leading-dot name) is falsy and falls back to the
whole name. -/
def tsBaseName (name : String) : String :=
  match beforeLastDot name.data with
  | some [] => name
  | some st => ⟨st⟩
  | none => name

/-- Is `p` a prefix of `s` (JS `type.startsWith('image/')`)? -/
def listStarts : List Char → List Char → Bool
  | [], _ => true
  | _ :: _, [] => false
  | a :: as, b :: bs => a == b && listStarts as bs

/-- `wasmService.compressImage` (lines 238–269): the canvas re-encoding is a
browser effect, modelled by the oracle `compress` giving the re-encoded bytes;
the code fixes the new file's name and type to the original's and its size to
the blob's length, and its `arrayBuffer()` succeeds. -/
def compressImage (compress : JsFile → Nat → List Nat) (f : JsFile)
    (maxSize : Nat) : JsFile :=
  let nb := compress f maxSize
  { name := f.name, size := nb.length, type := f.type, bytes := .ok nb }

/-- The body of the `for (const file of files)` loop of `convertDocuments`
for one file.  An empty `targetFormats` makes `primaryFormat` undefined:
the size lookup falls back to the default and `getMimeType(undefined)`
raises a `TypeError` inside the `try` (after the bytes were read). -/
def convertOne (compress : JsFile → Nat → List Nat)
    (targetFormats : List String) (maxSizes : List (String × Nat))
    (examType : String) (f : JsFile) : Except String ConvertedFile :=
  match targetFormats with
  | [] =>
      let processed :=
        if f.size > 5242880 then
          (if listStarts "image/".data f.type.data then
            compressImage compress f 5242880
          else f)
        else f
      (match processed.bytes with
       | .error e => .error e
       | .ok _ => .error "TypeError: format is undefined")
  | primaryFormat :: _ =>
      let maxSize := jsOrDefault (maxSizes.lookup primaryFormat) 5242880
      let processed :=
        if f.size > maxSize then
          (if listStarts "image/".data f.type.data then
            compressImage compress f maxSize
          else f)
        else f
      (match processed.bytes with
       | .error e => .error e
       | .ok bs =>
          .ok { originalName := f.name,
                convertedName :=
                  tsBaseName f.name ++ "_" ++ jsToUpper examType ++ "." ++
                    jsToLower primaryFormat,
                blob := { content := bs, mime := getMimeType primaryFormat } })

/-- The whole conversion loop; the first raised error aborts it. -/
def convertLoop (compress : JsFile → Nat → List Nat)
    (targetFormats : List String) (maxSizes : List (String × Nat))
    (examType : String) : List JsFile → Except String (List ConvertedFile)
  | [] => .ok []
  | f :: fs =>
      match convertOne compress targetFormats maxSizes examType f with
      | .error e => .error e
      | .ok c =>
          match convertLoop compress targetFormats maxSizes examType fs with
          | .error e => .error e
          | .ok cs => .ok (c :: cs)

/-- `wasmService.convertDocuments` (lines 172–236): throws when not
initialized; otherwise the whole loop runs under one `try`, and any failure
yields `{ success: false, files: [], error }` — the per-file results collected
so far are discarded. -/
def convertDocuments (initialized : Bool)
    (compress : JsFile → Nat → List Nat) (files : List JsFile)
    (examType : String) (targetFormats : List String)
    (maxSizes : List (String × Nat)) : Except String ConversionResult :=
  if initialized = false then .error "Document service not initialized"
  else
    match convertLoop compress targetFormats maxSizes examType files with
    | .ok cfs => .ok { success := true, files := cfs, error := none }
    | .error e => .ok { success := false, files := [], error := some e }

/-- The visible state `App.tsx` keeps per file item (name, status, error). -/
structure ItemState where
  name : String
  status : String
  error : Option String
deriving DecidableEq, Repr

/-- The `setFiles` update of `App.handleConvert` after `convertDocuments`
returns (lines 92–105): on success every item becomes `success`; otherwise
every item becomes `error` with `result.error || 'Conversion failed'`. -/
def applyConversionResult (names : List String) (r : ConversionResult) :
    List ItemState :=
  if r.success = true then
    names.map (fun n => { name := n, status := "success", error := none })
  else
    names.map (fun n =>
      { name := n, status := "error",
        error := some (match r.error with
          | some e => if e = "" then "Conversion failed" else e
          | none => "Conversion failed") })

end ExamConv

namespace ExamConv

example : (analyzeFilename "12th_marksheet.pdf").suggestedName = "12thMarksheet.pdf" := by decide
example : (analyzeFilename "").suggestedName = "Document" := by decide
example : (analyzeFilename "a.photo").documentType = "photo" := by decide
example : (analyzeFilename "a.jpg").documentType = "unknown" := by decide
example : (pyAnalyzeFilename "a.photo").document_type = "unknown" := by decide
example : (analyzeFilename "obc.pdf").suggestedName = "CategoryCertificate.pdf" := by decide
example : (analyzeFilename "CategoryCertificate.pdf").documentType = "certificate" := by decide
example : tsConfidence "12th_marksheet.pdf" = 1 := by
  rw [tsConfidence, if_pos (by decide), if_pos (by decide), jsMin,
    if_pos (by norm_num)]
  norm_num

/-! ### Supporting lemmas -/

theorem matchAtoms_map_lit (w rest : List Char) :
    matchAtoms (w.map Atom.lit) (w ++ rest) = true := by
  induction w with
  | nil => rfl
  | cons c w ih => simp [matchAtoms, charIEq, ih]

theorem searchRegex_append_right (re : RegexE) (alt : RegexAlt)
    (hmem : alt ∈ re) (l m : List Char) (h : matchAtoms alt m = true) :
    searchRegex re (l ++ m) = true := by
  induction l with
  | nil =>
      cases m with
      | nil =>
          simp only [List.nil_append, searchRegex, List.any_eq_true]
          exact ⟨alt, hmem, h⟩
      | cons c cs =>
          simp only [List.nil_append, searchRegex, List.any_eq_true,
            Bool.or_eq_true]
          exact Or.inl ⟨alt, hmem, h⟩
  | cons c l ih =>
      simp only [List.cons_append, searchRegex, Bool.or_eq_true]
      exact Or.inr ih

theorem detectFirst_all_fail (cats : List (String × List RegexE))
    (text : List Char)
    (h : ∀ q ∈ cats, ∀ p ∈ q.2, searchRegex p text = false) :
    detectFirst cats text = "unknown" := by
  induction cats with
  | nil => rfl
  | cons q rest ih =>
      obtain ⟨ty, pats⟩ := q
      have hany : pats.any (fun p => searchRegex p text) = false := by
        rw [List.any_eq_false]
        intro p hp
        simp [h (ty, pats) (List.mem_cons_self _ _) p hp]
      simp [detectFirst, hany]
      exact ih (fun q hq => h q (List.mem_cons_of_mem _ hq))

theorem detectFirst_append (pre : List (String × List RegexE)) (ty : String)
    (pats : List RegexE) (post : List (String × List RegexE))
    (text : List Char) (hty : ty ≠ "unknown")
    (hpre : ∀ q ∈ pre, ∀ p ∈ q.2, searchRegex p text = false)
    (hmatch : pats.any (fun p => searchRegex p text) = true) :
    detectFirst (pre ++ (ty, pats) :: post) text = ty := by
  induction pre with
  | nil => simp [detectFirst, hmatch, hty]
  | cons q rest ih =>
      obtain ⟨ty', pats'⟩ := q
      have hany : pats'.any (fun p => searchRegex p text) = false := by
        rw [List.any_eq_false]
        intro p hp
        simp [hpre (ty', pats') (List.mem_cons_self _ _) p hp]
      simp [detectFirst, hany]
      exact ih (fun q hq => hpre q (List.mem_cons_of_mem _ hq))

theorem pyDetect_all_fail (cats : List (String × List RegexE))
    (text : List Char)
    (h : ∀ q ∈ cats, ∀ p ∈ q.2, searchRegex p text = false) :
    pyDetect cats text = "unknown" := by
  induction cats with
  | nil => rfl
  | cons q rest ih =>
      obtain ⟨ty, pats⟩ := q
      have hany : pats.any (fun p => searchRegex p text) = false := by
        rw [List.any_eq_false]
        intro p hp
        simp [h (ty, pats) (List.mem_cons_self _ _) p hp]
      simp [pyDetect, hany]
      exact ih (fun q hq => h q (List.mem_cons_of_mem _ hq))

theorem beforeLastDot_eq_none (ys : List Char) (h : '.' ∉ ys) :
    beforeLastDot ys = none := by
  induction ys with
  | nil => rfl
  | cons c cs ih =>
      have hc : ¬ c = '.' := fun e => h (e ▸ List.mem_cons_self c cs)
      have hcs : '.' ∉ cs := fun hm => h (List.mem_cons_of_mem _ hm)
      simp [beforeLastDot, ih hcs, hc]

theorem beforeLastDot_append (xs ys : List Char) (h : '.' ∉ ys) :
    beforeLastDot (xs ++ '.' :: ys) = some xs := by
  induction xs with
  | nil => simp [beforeLastDot, beforeLastDot_eq_none ys h]
  | cons c cs ih => simp [beforeLastDot, ih]

theorem jsToLower_data (s : String) :
    (jsToLower s).data = s.data.map Char.toLower := rfl

theorem strData_append (a b : String) : (a ++ b).data = a.data ++ b.data := rfl

/-- The lower-cased stem of `stem ++ "." ++ e` is the lower-cased `stem`,
provided the lower-cased extension contains no further dot. -/
theorem pyStemLower_append (stem e : String)
    (hdot : '.' ∉ (jsToLower e).data) :
    pyStemLower (stem ++ "." ++ e) = jsToLower stem := by
  have hdata : (jsToLower (stem ++ "." ++ e)).data =
      (jsToLower stem).data ++ '.' :: (jsToLower e).data := by
    simp [jsToLower_data, strData_append, List.map_append]
  unfold pyStemLower
  rw [hdata, beforeLastDot_append _ _ hdot]

/-! ### Claim C5 -/

/-- C5: for every filename containing the substring `"marksheet"` in any
letter case (so whose lower-cased character list splits as
`l ++ "marksheet" ++ r`), the classifier returns
`documentType == "marksheet"`: the marksheet category is first in declaration
order and the first matching category wins. -/
theorem claim_C5 (s : String) (l r : List Char)
    (h : (jsToLower s).data = l ++ "marksheet".data ++ r) :
    (analyzeFilename s).documentType = "marksheet" := by
  show tsDocumentType s = "marksheet"
  rw [tsDocumentType, h, List.append_assoc]
  have hm : matchAtoms (litA "marksheet") ("marksheet".data ++ r) = true :=
    matchAtoms_map_lit _ _
  have hs : searchRegex
      [litA "marksheet", litA "mark" ++ [Atom.wsStar] ++ litA "sheet"]
      (l ++ ("marksheet".data ++ r)) = true :=
    searchRegex_append_right _ _ (List.mem_cons_self _ _) l _ hm
  exact detectFirst_append [] "marksheet" _ _ _ (by decide)
    (fun q hq => absurd hq (List.not_mem_nil q))
    (by simp only [List.any_cons, List.any_nil, Bool.or_eq_true,
          Bool.or_false]
        exact Or.inl (by simpa using hs))

theorem claim_C5_witness :
    (jsToLower "My_MARKSHEET.png").data =
      "my_".data ++ "marksheet".data ++ ".png".data ∧
    (analyzeFilename "My_MARKSHEET.png").documentType = "marksheet" :=
  ⟨by decide, claim_C5 "My_MARKSHEET.png" "my_".data ".png".data (by decide)⟩

/-! ### Claim C6 -/

/-- C6: `classify("12th_marksheet.pdf")` returns
`suggestedName == "12thMarksheet.pdf"` and its confidence exceeds the base
value `0.5` by exactly both increments (`+0.3` for the document type and
`+0.2` for the education level). -/
theorem claim_C6 :
    (analyzeFilename "12th_marksheet.pdf").suggestedName =
      "12thMarksheet.pdf" ∧
    (analyzeFilename "12th_marksheet.pdf").confidence = 1/2 + 3/10 + 1/5 := by
  refine ⟨by decide, ?_⟩
  show tsConfidence "12th_marksheet.pdf" = 1/2 + 3/10 + 1/5
  rw [tsConfidence, if_pos (by decide), if_pos (by decide), jsMin,
    if_pos (by norm_num)]

/-! ### Claim C7 -/

/-- C7: for every input string (empty and arbitrarily long ones included) the
confidence returned by the classifier lies in `[0, 1]`; this holds for the
TypeScript classifier and for the Python analyzer's confidence alike. -/
theorem claim_C7 (s : String) :
    0 ≤ (analyzeFilename s).confidence ∧ (analyzeFilename s).confidence ≤ 1 ∧
    0 ≤ (pyAnalyzeFilename s).confidence ∧
    (pyAnalyzeFilename s).confidence ≤ 1 := by
  refine ⟨?_, ?_, ?_, ?_⟩
  · show 0 ≤ tsConfidence s
    unfold tsConfidence jsMin
    split_ifs <;> norm_num
  · show tsConfidence s ≤ 1
    unfold tsConfidence jsMin
    split_ifs <;> norm_num
  · show 0 ≤ pyConfidence s
    unfold pyConfidence jsMin
    split_ifs <;> norm_num
  · show pyConfidence s ≤ 1
    unfold pyConfidence jsMin
    split_ifs <;> norm_num

/-! ### Claim C8 -/

/-- C8: `classify("")` yields `documentType == "unknown"`,
`educationLevel == "unknown"` (the TypeScript service computes it internally,
the Python analyzer returns it), confidence at its base value (`0.5` for the
TypeScript classifier, `0.0` for the Python analyzer) and
`suggestedName == "Document"`. -/
theorem claim_C8 :
    (analyzeFilename "").documentType = "unknown" ∧
    tsEducationLevel "" = "unknown" ∧
    (analyzeFilename "").confidence = 1/2 ∧
    (analyzeFilename "").suggestedName = "Document" ∧
    (pyAnalyzeFilename "").document_type = "unknown" ∧
    (pyAnalyzeFilename "").education_level = "unknown" ∧
    (pyAnalyzeFilename "").confidence = 0 ∧
    (pyAnalyzeFilename "").suggested_name = "Document" := by
  refine ⟨by decide, by decide, ?_, by decide, by decide, by decide, ?_,
    by decide⟩
  · show tsConfidence "" = 1/2
    rw [tsConfidence, if_neg (by decide), if_neg (by decide), jsMin,
      if_pos (by norm_num)]
  · show pyConfidence "" = 0
    rw [pyConfidence, if_neg (by decide), if_neg (by decide),
      if_neg (by decide), jsMin, if_pos (by norm_num)]

/-! ### Claim C9 -/

/-- C9: classification is not idempotent under renaming: for
`f = "obc.pdf"` the classifier suggests `"CategoryCertificate.pdf"`
(document type `category`), and classifying that suggestion yields document
type `certificate` and suggestion `"Certificate.pdf"` — a different result.
This is expected behaviour, not a round-trip guarantee. -/
theorem claim_C9 :
    ∃ f : String,
      analyzeFilename ((analyzeFilename f).suggestedName) ≠
        analyzeFilename f := by
  refine ⟨"obc.pdf", fun h => ?_⟩
  have h2 := congrArg FilenameAnalysis.documentType h
  revert h2
  decide

/-! ### Claim C1 -/

/-- C1 counterexample: the TypeScript classifier used by the app tests its
patterns against the whole lower-cased filename, not against the stem.
`"a.photo"` and `"a.jpg"` have the same stem `"a"`, yet they classify
differently — the extension does influence the result, refuting the claim. -/
theorem claim_C1_counterexample :
    beforeLastDot "a.photo".data = some "a".data ∧
    beforeLastDot "a.jpg".data = some "a".data ∧
    (analyzeFilename "a.photo").documentType = "photo" ∧
    (analyzeFilename "a.jpg").documentType = "unknown" := by
  refine ⟨by decide, by decide, by decide, by decide⟩

/-- C1 amended: the TypeScript classifier (`wasmService.analyzeFilename`)
iterates the categories in fixed declaration order and the first category
with a matching pattern wins, but the patterns are tested against the entire
lower-cased filename (extension included), so the extension can influence the
result.  The Python analyzer of `wasm-loader.js`, by contrast, tests only the
lower-cased stem, so there the extension never influences the classification:
its document type and education level for `stem ++ "." ++ e` are exactly the
detection results on the lower-cased `stem`. -/
theorem claim_C1_amended (s stem e : String)
    (pre post : List (String × List RegexE)) (ty : String)
    (pats : List RegexE)
    (hdot : '.' ∉ (jsToLower e).data)
    (hsplit : documentPatterns = pre ++ (ty, pats) :: post)
    (hmatch : pats.any (fun p => searchRegex p (jsToLower s).data) = true)
    (hpre : ∀ q ∈ pre, ∀ p ∈ q.2, searchRegex p (jsToLower s).data = false) :
    tsDocumentType s = ty ∧
    pyDocumentType (stem ++ "." ++ e) =
      pyDetect documentPatterns (jsToLower stem).data ∧
    pyEducationLevel (stem ++ "." ++ e) =
      pyDetect classPatterns (jsToLower stem).data := by
  have hstem := pyStemLower_append stem e hdot
  refine ⟨?_, ?_, ?_⟩
  · have hty : ty ≠ "unknown" := by
      have hmem : (ty, pats) ∈ documentPatterns := by
        rw [hsplit]
        exact List.mem_append_right _ (List.mem_cons_self _ _)
      simp only [documentPatterns, List.mem_cons, List.not_mem_nil,
        or_false, Prod.mk.injEq] at hmem
      rcases hmem with ⟨h1, _⟩ | ⟨h1, _⟩ | ⟨h1, _⟩ | ⟨h1, _⟩ | ⟨h1, _⟩ |
        ⟨h1, _⟩ <;> subst h1 <;> decide
    rw [tsDocumentType, hsplit]
    exact detectFirst_append pre ty pats post _ hty hpre hmatch
  · rw [pyDocumentType, hstem]
  · rw [pyEducationLevel, hstem]

theorem claim_C1_witness :
    tsDocumentType "a.photo" = "photo" ∧
    pyDocumentType "pic.jpg" =
      pyDetect documentPatterns (jsToLower "pic").data ∧
    pyEducationLevel "pic.jpg" =
      pyDetect classPatterns (jsToLower "pic").data :=
  claim_C1_amended "a.photo" "pic" "jpg" (documentPatterns.take 2)
    (documentPatterns.drop 3) "photo" ((documentPatterns.get ⟨2, by decide⟩).2)
    (by decide) (by decide) (by decide) (by decide)

/-! ### Claim C2 -/

/-- C2 counterexample: the `AnalysisResult` returned by the service has
exactly the fields `originalName`, `suggestedName`, `confidence` and
`documentType` — it contains no `educationLevel` field, even though for the
unmatched input `"zzz.bin"` the `documentType` member does default to
`"unknown"`. -/
theorem claim_C2_counterexample :
    ("educationLevel" ∈ analysisResultKeys) = false ∧
    (analyzeFilename "zzz.bin").documentType = "unknown" ∧
    tsEducationLevel "zzz.bin" = "unknown" := by
  refine ⟨by decide, by decide, by decide⟩

/-- C2 amended: the result of classification contains a `documentType` field
which equals `"unknown"` whenever no pattern of the document rule set matches
the (lower-cased) filename; the education level is likewise computed,
defaulting to `"unknown"` whenever no pattern of the class rule set matches,
but it is not among the fields of the returned `AnalysisResult` (only the
Python analyzer of `wasm-loader.js` returns an `education_level` member).
Each default is conditioned only on its own rule set, so either may hold
while the other rule set does match. -/
theorem claim_C2_amended (s : String) :
    ((∀ q ∈ documentPatterns, ∀ p ∈ q.2,
        searchRegex p (jsToLower s).data = false) →
      (analyzeFilename s).documentType = "unknown") ∧
    ((∀ q ∈ classPatterns, ∀ p ∈ q.2,
        searchRegex p (jsToLower s).data = false) →
      tsEducationLevel s = "unknown") ∧
    ("documentType" ∈ analysisResultKeys) = true ∧
    ("educationLevel" ∈ analysisResultKeys) = false ∧
    (pyAnalyzeFilename s).document_type =
      pyDetect documentPatterns (pyStemLower s).data := by
  refine ⟨?_, ?_, by decide, by decide, rfl⟩
  · intro hdoc
    show tsDocumentType s = "unknown"
    exact detectFirst_all_fail _ _ hdoc
  · intro hcls
    exact detectFirst_all_fail _ _ hcls

theorem claim_C2_witness :
    (analyzeFilename "10th_file.pdf").documentType = "unknown" ∧
    tsEducationLevel "10th_file.pdf" = "10th" ∧
    tsEducationLevel "photo.jpg" = "unknown" ∧
    (analyzeFilename "photo.jpg").documentType = "photo" ∧
    ("documentType" ∈ analysisResultKeys) = true ∧
    ("educationLevel" ∈ analysisResultKeys) = false :=
  ⟨(claim_C2_amended "10th_file.pdf").1 (by decide),
   by decide,
   (claim_C2_amended "photo.jpg").2.1 (by decide),
   by decide,
   (claim_C2_amended "10th_file.pdf").2.2.1,
   (claim_C2_amended "10th_file.pdf").2.2.2.1⟩

/-! ### Claim C10 -/

/-- C10: `analyzeDocument` throws exactly when the service is not yet
initialized; once initialized it always returns a result, and an internal
analysis failure is caught and replaced by the fallback
`{ originalName: name, suggestedName: name, confidence: 0.5,
documentType: 'unknown' }`. -/
theorem claim_C10 (analyze : String → Except String FilenameAnalysis)
    (initialized : Bool) (name : String) :
    ((∃ e, analyzeDocumentWith analyze initialized name = .error e) ↔
      initialized = false) ∧
    (initialized = true →
      ∃ r, analyzeDocumentWith analyze initialized name = .ok r) ∧
    (∀ e, initialized = true → analyze name = .error e →
      analyzeDocumentWith analyze initialized name =
        .ok { originalName := name, suggestedName := name,
              confidence := 1/2, documentType := "unknown" }) := by
  cases initialized with
  | false =>
      refine ⟨⟨fun _ => rfl, fun _ => ⟨_, rfl⟩⟩, ?_, ?_⟩
      · intro h; cases h
      · intro e h; cases h
  | true =>
      cases h : analyze name with
      | ok a =>
          have hX : analyzeDocumentWith analyze true name =
              .ok { originalName := name, suggestedName := a.suggestedName,
                    confidence := a.confidence,
                    documentType := a.documentType } := by
            rw [analyzeDocumentWith]; simp [h]
          refine ⟨⟨?_, ?_⟩, fun _ => ⟨_, hX⟩, ?_⟩
          · rintro ⟨e, he⟩
            rw [hX] at he
            cases he
          · intro hcontra; cases hcontra
          · intro e _ he
            cases he
      | error msg =>
          have hX : analyzeDocumentWith analyze true name =
              .ok { originalName := name, suggestedName := name,
                    confidence := 1/2, documentType := "unknown" } := by
            rw [analyzeDocumentWith]; simp [h]
          refine ⟨⟨?_, ?_⟩, fun _ => ⟨_, hX⟩, ?_⟩
          · rintro ⟨e, he⟩
            rw [hX] at he
            cases he
          · intro hcontra; cases hcontra
          · intro e _ _
            exact hX

/-- An analysis that always fails, exercising `analyzeDocument`'s catch. -/
def failingAnalyze : String → Except String FilenameAnalysis :=
  fun _ => .error "boom"

theorem claim_C10_witness :
    analyzeDocumentWith failingAnalyze true "a.pdf" =
      .ok { originalName := "a.pdf", suggestedName := "a.pdf",
            confidence := 1/2, documentType := "unknown" } ∧
    (∃ e, analyzeDocumentWith failingAnalyze false "a.pdf" = .error e) := by
  constructor
  · exact (claim_C10 failingAnalyze true "a.pdf").2.2 "boom" rfl rfl
  · exact (claim_C10 failingAnalyze false "a.pdf").1.mpr rfl

/-! ### Claim C3 -/

/-- `Except.isOk` specialised to the conversion loop's element type. -/
def isOkConv : Except String ConvertedFile → Bool
  | .ok _ => true
  | .error _ => false

theorem convertLoop_first_error (compress : JsFile → Nat → List Nat)
    (tf : List String) (ms : List (String × Nat)) (ex : String)
    (pre : List JsFile) (f : JsFile) (post : List JsFile) (e : String)
    (hpre : ∀ g ∈ pre, isOkConv (convertOne compress tf ms ex g) = true)
    (hf : convertOne compress tf ms ex f = .error e) :
    convertLoop compress tf ms ex (pre ++ f :: post) = .error e := by
  induction pre with
  | nil =>
      simp only [List.nil_append, convertLoop, hf]
  | cons g rest ih =>
      have hg := hpre g (List.mem_cons_self _ _)
      have ih' := ih (fun g' hg' => hpre g' (List.mem_cons_of_mem _ hg'))
      simp only [List.cons_append, convertLoop]
      cases hc : convertOne compress tf ms ex g with
      | error e' => rw [hc] at hg; simp [isOkConv] at hg
      | ok c =>
          simp only [List.append_eq]
          rw [ih']

/-- C3 amended: when conversion of one queued file fails, the whole batch
fails — `convertDocuments` discards every per-file result, returns
`{ success: false, files: [], error }` carrying the first error, and
`App.handleConvert` then marks every queued file (not only the failing one)
with an error status.  Per-file continuation exists only in the analysis
step, not in conversion. -/
theorem claim_C3_amended (compress : JsFile → Nat → List Nat)
    (tf : List String) (ms : List (String × Nat)) (ex : String)
    (pre : List JsFile) (f : JsFile) (post : List JsFile) (e : String)
    (hpre : ∀ g ∈ pre, isOkConv (convertOne compress tf ms ex g) = true)
    (hf : convertOne compress tf ms ex f = .error e) :
    convertDocuments true compress (pre ++ f :: post) ex tf ms =
      .ok { success := false, files := [], error := some e } ∧
    ∀ it ∈ applyConversionResult ((pre ++ f :: post).map JsFile.name)
        { success := false, files := [], error := some e },
      it.status = "error" := by
  constructor
  · rw [convertDocuments]
    simp only [Bool.true_eq_false, if_false]
    rw [convertLoop_first_error compress tf ms ex pre f post e hpre hf]
  · intro it hit
    simp only [applyConversionResult, Bool.false_eq_true, if_false,
      List.mem_map] at hit
    obtain ⟨n, _, hn⟩ := hit
    rw [← hn]

/-- A file whose `arrayBuffer()` succeeds. -/
def goodFile : JsFile :=
  { name := "good.pdf", size := 3, type := "application/pdf",
    bytes := .ok [7, 8, 9] }

/-- A file whose `arrayBuffer()` rejects. -/
def badFile : JsFile :=
  { name := "bad.pdf", size := 3, type := "application/pdf",
    bytes := .error "read failed" }

/-- A compression oracle that keeps the readable bytes unchanged. -/
def noCompress : JsFile → Nat → List Nat :=
  fun f _ => match f.bytes with
  | .ok bs => bs
  | .error _ => []

/-- C3 counterexample: with two queued files of which only the first fails to
convert, `convertDocuments` returns `success: false` with an **empty** result
list — the intact second file gets no result — and the app then marks *both*
files with an error status, refuting "only that individual file is marked
with an error status and the workflow continues for the remaining files". -/
theorem claim_C3_counterexample :
    convertDocuments true noCompress [badFile, goodFile] "neet" ["PDF"]
        [("PDF", 100)] =
      .ok { success := false, files := [],
            error := some "read failed" } ∧
    applyConversionResult ["bad.pdf", "good.pdf"]
        { success := false, files := [], error := some "read failed" } =
      [ { name := "bad.pdf", status := "error",
          error := some "read failed" },
        { name := "good.pdf", status := "error",
          error := some "read failed" } ] :=
  ⟨rfl, rfl⟩

theorem claim_C3_witness :
    convertDocuments true noCompress ([goodFile] ++ badFile :: []) "neet"
        ["PDF"] [("PDF", 100)] =
      .ok { success := false, files := [], error := some "read failed" } ∧
    ∀ it ∈ applyConversionResult (([goodFile] ++ badFile :: []).map
        JsFile.name)
        { success := false, files := [], error := some "read failed" },
      it.status = "error" :=
  claim_C3_amended noCompress ["PDF"] [("PDF", 100)] "neet" [goodFile]
    badFile [] "read failed"
    (by intro g hg
        have : g = goodFile := by
          cases hg with
          | head => rfl
          | tail _ h => cases h
        rw [this]; rfl)
    rfl

/-! ### Claim C4 -/

/-- C4 amended: for every queued file that is within the primary format's
size limit, or whose MIME type is not an image type, conversion is a
byte-identical passthrough: the produced blob holds exactly the original
bytes with the primary format's MIME type, under the synthesized name
`{base}_{EXAMTYPE}.{format}`.  Files *larger* than the limit with an image
MIME type are instead re-encoded through the canvas and their bytes may
change. -/
theorem claim_C4_amended (compress : JsFile → Nat → List Nat)
    (pf : String) (rest : List String) (ms : List (String × Nat))
    (ex : String) (f : JsFile) (bs : List Nat)
    (hbytes : f.bytes = .ok bs)
    (hsmall : f.size ≤ jsOrDefault (ms.lookup pf) 5242880 ∨
      listStarts "image/".data f.type.data = false) :
    convertOne compress (pf :: rest) ms ex f =
      .ok { originalName := f.name,
            convertedName :=
              tsBaseName f.name ++ "_" ++ jsToUpper ex ++ "." ++ jsToLower pf,
            blob := { content := bs, mime := getMimeType pf } } := by
  rw [convertOne]
  rcases hsmall with hsz | himg
  · rw [if_neg (by omega)]
    simp [hbytes]
  · by_cases hsz : f.size > jsOrDefault (ms.lookup pf) 5242880
    · rw [if_pos hsz, if_neg (by rw [himg]; exact Bool.false_ne_true)]
      simp [hbytes]
    · rw [if_neg hsz]
      simp [hbytes]

/-- A canvas model whose re-encoding empties the file. -/
def zeroCompress : JsFile → Nat → List Nat := fun _ _ => []

/-- An image file larger than the 2-byte limit used in the counterexample. -/
def oversizedImage : JsFile :=
  { name := "photo.jpg", size := 3, type := "image/jpeg",
    bytes := .ok [1, 2, 3] }

/-- C4 counterexample: an image file over the configured size limit takes the
canvas-compression path, so the downloadable blob does *not* contain the
original file's bytes: the original bytes are `[1, 2, 3]` but the produced
blob content is the re-encoded output (here `[]`), refuting "for every input
file ... exactly the original file's bytes". -/
theorem claim_C4_counterexample :
    oversizedImage.bytes = .ok [1, 2, 3] ∧
    convertOne zeroCompress ["JPEG"] [("JPEG", 2)] "neet" oversizedImage =
      .ok { originalName := "photo.jpg",
            convertedName := "photo_NEET.jpeg",
            blob := { content := [], mime := "image/jpeg" } } :=
  ⟨rfl, rfl⟩

theorem claim_C4_witness :
    convertOne noCompress ["PDF"] [("PDF", 100)] "neet" goodFile =
      .ok { originalName := goodFile.name,
            convertedName :=
              tsBaseName goodFile.name ++ "_" ++ jsToUpper "neet" ++ "." ++
                jsToLower "PDF",
            blob := { content := [7, 8, 9], mime := getMimeType "PDF" } } :=
  claim_C4_amended noCompress "PDF" [] [("PDF", 100)] "neet" goodFile
    [7, 8, 9] rfl (Or.inl (by decide))

end ExamConv
